import Mathlib

/-!
Verification of the AgentCore deployment sample (TypeScript).

This file gives a shallow embedding of the deployment orchestrator
(deploy-agent script), the readiness poller (waitForReady), the Express
service handler (POST /invocations), the invocation client CLI
(invoke-agent script), and the calculator tool of the agent server,
and proves properties of the embedded definitions.

Remote I/O is modelled by passing in the data the remote calls would
return (the listing returned by listRuntimes, the sequence of responses
returned by successive getRuntime calls, the entropy returned by
randomBytes) and recording the remote calls the code issues as a trace.
-/

namespace AgentCore

/-- Response of a GetAgentRuntime call as observed by the poller:
the status string and the optional failureReason. -/
structure RuntimeResponse where
  status : String
  failureReason : Option String
  deriving Repr, DecidableEq

/-- Remote control-plane calls issued by the deployment script, recorded
as a trace. Field values are the arguments the script passes. -/
inductive RemoteCall where
  | listRuntimes
  | createRuntime (name containerUri roleArn networkMode : String)
  | updateRuntime (id containerUri roleArn networkMode : String)
  | getRuntime (id : String)
  deriving Repr, DecidableEq

/-- Outcome of the waitForReady loop: the loop exits normally returning
the last status string, or the loop throws the deployment-failed error,
or the supplied response sequence is exhausted while the loop would
still continue (modelling that the real loop would keep polling). -/
inductive PollOutcome where
  | ok (status : String)
  | failed (msg : String)
  | exhausted
  deriving Repr, DecidableEq

/-- Embedding of the JavaScript expression
res.failureReason or the literal Unknown, where an absent or empty
(falsy) failureReason yields Unknown. -/
def orUnknown : Option String → String
  | none => "Unknown"
  | some r => if r = "" then "Unknown" else r

/-- Embedding of waitForReady from the deploy script. The real function
is a do-while loop: each iteration sleeps, issues getRuntime, throws
when the status is CREATE_FAILED or UPDATE_FAILED, and repeats while
the status is CREATING or UPDATING; any other status exits the loop and
is returned. Here the successive getRuntime responses are supplied as a
list, one consumed per iteration, and the issued getRuntime calls are
returned alongside the outcome. -/
def waitForReady (agentRuntimeId : String) :
    List RuntimeResponse → List RemoteCall × PollOutcome
  | [] => ([], .exhausted)
  | res :: rest =>
    if res.status = "CREATE_FAILED" ∨ res.status = "UPDATE_FAILED" then
      ([.getRuntime agentRuntimeId],
       .failed ("Deployment failed: " ++ orUnknown res.failureReason))
    else if res.status = "CREATING" ∨ res.status = "UPDATING" then
      let next := waitForReady agentRuntimeId rest
      (.getRuntime agentRuntimeId :: next.1, next.2)
    else
      ([.getRuntime agentRuntimeId], .ok res.status)

/-- The string s contains sub as a substring. -/
def containsStr (s sub : String) : Prop :=
  ∃ p q : String, s = p ++ sub ++ q

/-- Entry of the ListAgentRuntimes response as used by the deploy
script: the runtime name and the runtime id. -/
structure AgentSummary where
  agentRuntimeName : String
  agentRuntimeId : String
  deriving Repr, DecidableEq

/-- The fixed logical runtime name of the deploy script. -/
def AGENT_NAME : String := "agentcore_deployment"

/-- Embedding of findExistingAgent: issue ListAgentRuntimes and scan the
returned entries for the first one whose agentRuntimeName equals
AGENT_NAME. The listing the remote call would return is the argument. -/
def findExistingAgent (agentRuntimes : List AgentSummary) : Option AgentSummary :=
  agentRuntimes.find? (fun a => a.agentRuntimeName = AGENT_NAME)

/-- Environment configuration read by the deploy script: ROLE_ARN and
REPO_URI, each possibly unset. -/
structure DeployConfig where
  ROLE_ARN : Option String
  REPO_URI : Option String
  deriving Repr, DecidableEq

/-- JavaScript falsiness of an optional environment-variable string: an
unset variable or the empty string is falsy. -/
def falsy : Option String → Bool
  | none => true
  | some s => s = ""

/-- Error raised by the deploy script. The configurationError case is
the error thrown by the environment-variable validation at the top of
the main flow; the deploymentFailed case is the error thrown by
waitForReady on a failure status. -/
inductive DeployError where
  | configurationError (msg : String)
  | deploymentFailed (msg : String)
  deriving Repr, DecidableEq

/-- Embedding of the main deployment flow of the deploy script:
validate that ROLE_ARN and REPO_URI are set and non-empty, else throw
the missing-environment error before any remote call; then issue
listRuntimes and scan it with findExistingAgent; if an entry is found,
issue updateRuntime with the existing id, the container URI built from
REPO_URI, ROLE_ARN and networkMode PUBLIC, else issue createRuntime
with AGENT_NAME and the same values; finally poll with waitForReady on
the runtime id carried by the create or update response. The listing,
the response runtime id and the getRuntime responses are arguments
standing for what the remote calls return; the result is the trace of
remote calls together with the final outcome. -/
def deploy (cfg : DeployConfig) (listing : List AgentSummary)
    (respId : String) (pollResponses : List RuntimeResponse) :
    List RemoteCall × Except DeployError PollOutcome :=
  if falsy cfg.ROLE_ARN || falsy cfg.REPO_URI then
    ([], .error (.configurationError
      "Missing required environment variables. Run setup-prerequisites.sh and export ROLE_ARN and REPO_URI."))
  else
    let roleArn := cfg.ROLE_ARN.getD ""
    let containerUri := cfg.REPO_URI.getD "" ++ ":latest"
    let poll := waitForReady respId pollResponses
    let tail : Except DeployError PollOutcome :=
      match poll.2 with
      | .failed msg => .error (.deploymentFailed msg)
      | o => .ok o
    match findExistingAgent listing with
    | some existing =>
      (.listRuntimes
         :: .updateRuntime existing.agentRuntimeId containerUri roleArn "PUBLIC"
         :: poll.1, tail)
    | none =>
      (.listRuntimes
         :: .createRuntime AGENT_NAME containerUri roleArn "PUBLIC"
         :: poll.1, tail)

/-- Number of createRuntime calls in a trace. -/
def countCreates (cs : List RemoteCall) : Nat :=
  (cs.filter (fun c => match c with | .createRuntime _ _ _ _ => true | _ => false)).length

/-- Number of updateRuntime calls in a trace. -/
def countUpdates (cs : List RemoteCall) : Nat :=
  (cs.filter (fun c => match c with | .updateRuntime _ _ _ _ => true | _ => false)).length

/-- The getRuntime calls of the poller are neither creates nor updates. -/
theorem waitForReady_calls_are_gets (id : String) (rs : List RuntimeResponse) :
    ∀ c ∈ (waitForReady id rs).1, c = RemoteCall.getRuntime id := by
  induction rs with
  | nil => intro c hc; simp [waitForReady] at hc
  | cons r rest ih =>
    intro c hc
    unfold waitForReady at hc
    by_cases h1 : r.status = "CREATE_FAILED" ∨ r.status = "UPDATE_FAILED"
    · rw [if_pos h1] at hc
      simpa using hc
    · rw [if_neg h1] at hc
      by_cases h2 : r.status = "CREATING" ∨ r.status = "UPDATING"
      · rw [if_pos h2] at hc
        rcases List.mem_cons.mp hc with h | h
        · exact h
        · exact ih c h
      · rw [if_neg h2] at hc
        simpa using hc

/-- A trace of getRuntime calls only contains no creates and no
updates. -/
theorem counts_zero_of_gets (id : String) (cs : List RemoteCall)
    (h : ∀ c ∈ cs, c = RemoteCall.getRuntime id) :
    countCreates cs = 0 ∧ countUpdates cs = 0 := by
  induction cs with
  | nil => simp [countCreates, countUpdates]
  | cons c rest ih =>
    have hc := h c (List.mem_cons_self c rest)
    have hrest := ih (fun x hx => h x (List.mem_cons_of_mem c hx))
    subst hc
    simpa [countCreates, countUpdates, List.filter] using hrest

end AgentCore

namespace AgentCore

/-- C1 counterexample: with the unrecognized status DELETING followed by
READY, the poller exits the loop after a single getRuntime call and
returns DELETING; it does not perform another poll iteration, contrary
to the claim that unrecognized statuses are treated as non-terminal. -/
theorem C1_counterexample :
    waitForReady "rt-1"
        [⟨"DELETING", none⟩, ⟨"READY", none⟩]
      = ([.getRuntime "rt-1"], .ok "DELETING") ∧
    (waitForReady "rt-1"
        [⟨"DELETING", none⟩, ⟨"READY", none⟩]).1.length ≠ 2 := by
  constructor
  · rfl
  · decide

/-- C1 (amended): every status observed during polling that is not
CREATING and not UPDATING and not CREATE_FAILED and not UPDATE_FAILED
causes the loop to exit immediately, returning that status after the
single getRuntime call that observed it; only CREATING and UPDATING
trigger another poll iteration. -/
theorem C1_unrecognized_status_is_terminal
    (id : String) (res : RuntimeResponse) (rest : List RuntimeResponse)
    (h1 : res.status ≠ "CREATING") (h2 : res.status ≠ "UPDATING")
    (h3 : res.status ≠ "CREATE_FAILED") (h4 : res.status ≠ "UPDATE_FAILED") :
    waitForReady id (res :: rest) = ([.getRuntime id], .ok res.status) := by
  unfold waitForReady
  rw [if_neg, if_neg]
  · rintro (h | h) <;> [exact h1 h; exact h2 h]
  · rintro (h | h) <;> [exact h3 h; exact h4 h]

/-- Witness for C1_unrecognized_status_is_terminal at the concrete
status DELETING. -/
theorem C1_unrecognized_status_is_terminal_witness :
    waitForReady "rt-9" [⟨"DELETING", some "x"⟩, ⟨"READY", none⟩]
      = ([.getRuntime "rt-9"], .ok "DELETING") :=
  C1_unrecognized_status_is_terminal "rt-9" ⟨"DELETING", some "x"⟩
    [⟨"READY", none⟩] (by decide) (by decide) (by decide) (by decide)

/-- C3: when the control plane reports the status sequence CREATING,
CREATING, READY, one status per getRuntime response, the poller issues
exactly 3 getRuntime calls, regardless of any further responses that
would have been available, and exits the loop returning the status of
the third response, which is READY. -/
theorem C3_terminal_convergence
    (id : String) (r1 r2 r3 : RuntimeResponse) (rest : List RuntimeResponse)
    (h1 : r1.status = "CREATING") (h2 : r2.status = "CREATING")
    (h3 : r3.status = "READY") :
    (waitForReady id (r1 :: r2 :: r3 :: rest)).1
        = [.getRuntime id, .getRuntime id, .getRuntime id] ∧
    (waitForReady id (r1 :: r2 :: r3 :: rest)).2 = .ok r3.status ∧
    r3.status = "READY" := by
  simp [waitForReady, h1, h2, h3]

/-- Witness for C3_terminal_convergence on a concrete response
sequence. -/
theorem C3_terminal_convergence_witness :
    (waitForReady "rt-2"
        [⟨"CREATING", none⟩, ⟨"CREATING", none⟩, ⟨"READY", none⟩]).1
      = [.getRuntime "rt-2", .getRuntime "rt-2", .getRuntime "rt-2"] ∧
    (waitForReady "rt-2"
        [⟨"CREATING", none⟩, ⟨"CREATING", none⟩, ⟨"READY", none⟩]).2
      = .ok (RuntimeResponse.mk "READY" none).status ∧
    (RuntimeResponse.mk "READY" none).status = "READY" :=
  C3_terminal_convergence "rt-2" ⟨"CREATING", none⟩ ⟨"CREATING", none⟩
    ⟨"READY", none⟩ [] rfl rfl rfl

/-- C4: whenever the response reached during polling has status
CREATE_FAILED or UPDATE_FAILED, after any prefix of in-progress
responses, the poller raises the deployment-failed error right there:
it issues no further getRuntime call, and the error message contains
the remote failureReason when one is supplied and contains Unknown when
the failureReason is absent. -/
theorem C4_failure_surfacing
    (id : String) (pre : List RuntimeResponse) (res : RuntimeResponse)
    (rest : List RuntimeResponse)
    (hpre : ∀ r ∈ pre, r.status = "CREATING" ∨ r.status = "UPDATING")
    (hres : res.status = "CREATE_FAILED" ∨ res.status = "UPDATE_FAILED") :
    (waitForReady id (pre ++ res :: rest)).1.length = pre.length + 1 ∧
    (waitForReady id (pre ++ res :: rest)).2
        = .failed ("Deployment failed: " ++ orUnknown res.failureReason) ∧
    (∀ reason, res.failureReason = some reason →
        containsStr ("Deployment failed: " ++ orUnknown res.failureReason) reason) ∧
    (res.failureReason = none →
        containsStr ("Deployment failed: " ++ orUnknown res.failureReason) "Unknown") := by
  induction pre with
  | nil =>
    refine ⟨?_, ?_, ?_, ?_⟩
    · simp only [List.nil_append, waitForReady, if_pos hres]
      rfl
    · simp only [List.nil_append, waitForReady, if_pos hres]
    · intro reason hr
      by_cases hne : reason = ""
      · subst hne
        exact ⟨"Deployment failed: " ++ orUnknown res.failureReason, "", by simp⟩
      · exact ⟨"Deployment failed: ", "", by simp [orUnknown, hr, hne]⟩
    · intro hr
      exact ⟨"Deployment failed: ", "", by simp [orUnknown, hr]⟩
  | cons p ps ih =>
    have hp := hpre p (List.mem_cons_self p ps)
    have hps : ∀ r ∈ ps, r.status = "CREATING" ∨ r.status = "UPDATING" :=
      fun r hr => hpre r (List.mem_cons_of_mem p hr)
    have hpne : ¬ (p.status = "CREATE_FAILED" ∨ p.status = "UPDATE_FAILED") := by
      rcases hp with h | h <;> simp [h]
    obtain ⟨ih1, ih2, ih3, ih4⟩ := ih hps
    refine ⟨?_, ?_, ih3, ih4⟩
    · show (waitForReady id ((p :: ps) ++ res :: rest)).1.length = ps.length + 1 + 1
      simp only [List.cons_append, waitForReady, if_neg hpne, if_pos hp]
      simpa using ih1
    · show (waitForReady id ((p :: ps) ++ res :: rest)).2 = _
      simp only [List.cons_append, waitForReady, if_neg hpne, if_pos hp]
      exact ih2

/-- A find? over a list equals the head of the filtered list. -/
theorem find?_eq_head_filter {α : Type} (p : α → Bool) (l : List α) :
    l.find? p = (l.filter p).head? := by
  induction l with
  | nil => rfl
  | cons a l ih =>
    by_cases h : p a
    · simp [List.find?_cons_of_pos _ h, List.filter_cons_of_pos h]
    · rw [List.find?_cons_of_neg _ h, List.filter_cons_of_neg h, ih]

/-- C2: with valid configuration, when no listed entry carries the
target name, the deployment flow issues exactly one createRuntime call,
with the target name, the container URI, the role and networkMode
PUBLIC, and zero updateRuntime calls; when an entry with the target
name is found, it issues exactly one updateRuntime call, with the
existing id and networkMode PUBLIC, and zero createRuntime calls. -/
theorem C2_idempotent_targeting
    (cfg : DeployConfig) (listing : List AgentSummary)
    (respId : String) (prs : List RuntimeResponse)
    (hrole : falsy cfg.ROLE_ARN = false) (hrepo : falsy cfg.REPO_URI = false) :
    (findExistingAgent listing = none →
      countCreates (deploy cfg listing respId prs).1 = 1 ∧
      countUpdates (deploy cfg listing respId prs).1 = 0 ∧
      RemoteCall.createRuntime AGENT_NAME (cfg.REPO_URI.getD "" ++ ":latest")
          (cfg.ROLE_ARN.getD "") "PUBLIC" ∈ (deploy cfg listing respId prs).1) ∧
    (∀ e, findExistingAgent listing = some e →
      countUpdates (deploy cfg listing respId prs).1 = 1 ∧
      countCreates (deploy cfg listing respId prs).1 = 0 ∧
      RemoteCall.updateRuntime e.agentRuntimeId (cfg.REPO_URI.getD "" ++ ":latest")
          (cfg.ROLE_ARN.getD "") "PUBLIC" ∈ (deploy cfg listing respId prs).1) := by
  have hcond : (falsy cfg.ROLE_ARN || falsy cfg.REPO_URI) = false := by
    rw [hrole, hrepo]; rfl
  obtain ⟨hc0, hu0⟩ :=
    counts_zero_of_gets respId (waitForReady respId prs).1
      (waitForReady_calls_are_gets respId prs)
  constructor
  · intro hnone
    simp only [deploy, hcond, Bool.false_eq_true, if_false, hnone]
    refine ⟨?_, ?_, ?_⟩
    · simpa [countCreates, List.filter] using hc0
    · simpa [countUpdates, List.filter] using hu0
    · simp
  · intro e he
    simp only [deploy, hcond, Bool.false_eq_true, if_false, he]
    refine ⟨?_, ?_, ?_⟩
    · simpa [countUpdates, List.filter] using hu0
    · simpa [countCreates, List.filter] using hc0
    · simp

/-- Witness for C2_idempotent_targeting: a valid configuration, an
empty listing (create branch) exercised through the first conjunct, and
a listing containing the target (update branch) through the second. -/
theorem C2_idempotent_targeting_witness :
    (findExistingAgent ([] : List AgentSummary) = none →
      countCreates (deploy ⟨some "r", some "u"⟩ [] "id-c" []).1 = 1 ∧
      countUpdates (deploy ⟨some "r", some "u"⟩ [] "id-c" []).1 = 0 ∧
      RemoteCall.createRuntime AGENT_NAME ((some "u").getD "" ++ ":latest")
          ((some "r").getD "") "PUBLIC" ∈ (deploy ⟨some "r", some "u"⟩ [] "id-c" []).1) ∧
    (∀ e, findExistingAgent ([] : List AgentSummary) = some e →
      countUpdates (deploy ⟨some "r", some "u"⟩ [] "id-c" []).1 = 1 ∧
      countCreates (deploy ⟨some "r", some "u"⟩ [] "id-c" []).1 = 0 ∧
      RemoteCall.updateRuntime e.agentRuntimeId ((some "u").getD "" ++ ":latest")
          ((some "r").getD "") "PUBLIC" ∈ (deploy ⟨some "r", some "u"⟩ [] "id-c" []).1) :=
  C2_idempotent_targeting ⟨some "r", some "u"⟩ [] "id-c" [] rfl rfl

/-- C5: when ROLE_ARN, the role reference, or REPO_URI, the container
reference, is unset or empty, the deployment flow throws the
missing-environment-variables error, the configuration error of the
taxonomy, and issues no remote call at all. -/
theorem C5_config_validation
    (cfg : DeployConfig) (listing : List AgentSummary)
    (respId : String) (prs : List RuntimeResponse)
    (h : falsy cfg.ROLE_ARN = true ∨ falsy cfg.REPO_URI = true) :
    (deploy cfg listing respId prs).1 = [] ∧
    (deploy cfg listing respId prs).2 = .error (.configurationError
      "Missing required environment variables. Run setup-prerequisites.sh and export ROLE_ARN and REPO_URI.") := by
  have hcond : (falsy cfg.ROLE_ARN || falsy cfg.REPO_URI) = true := by
    rcases h with h | h <;> simp [h]
  simp [deploy, hcond]

/-- Witness for C5_config_validation: an empty container reference. -/
theorem C5_config_validation_witness :
    (deploy ⟨some "role-arn", some ""⟩ [] "id" []).1 = [] ∧
    (deploy ⟨some "role-arn", some ""⟩ [] "id" []).2 = .error (.configurationError
      "Missing required environment variables. Run setup-prerequisites.sh and export ROLE_ARN and REPO_URI.") :=
  C5_config_validation ⟨some "role-arn", some ""⟩ [] "id" [] (Or.inr rfl)

/-- C7: when more than one listed entry carries the target name, the
flow selects the first matching entry as the update target, issues
exactly one updateRuntime call with that entry's id, and proceeds:
the duplicate condition never produces the configuration error, the
trace continues past the decision into polling. -/
theorem C7_duplicate_names_first_wins
    (cfg : DeployConfig) (listing : List AgentSummary)
    (respId : String) (prs : List RuntimeResponse)
    (hrole : falsy cfg.ROLE_ARN = false) (hrepo : falsy cfg.REPO_URI = false)
    (hdup : 2 ≤ (listing.filter (fun a => a.agentRuntimeName = AGENT_NAME)).length) :
    ∃ e, (listing.filter (fun a => a.agentRuntimeName = AGENT_NAME)).head? = some e ∧
      findExistingAgent listing = some e ∧
      (deploy cfg listing respId prs).1
        = RemoteCall.listRuntimes
            :: RemoteCall.updateRuntime e.agentRuntimeId
                 (cfg.REPO_URI.getD "" ++ ":latest") (cfg.ROLE_ARN.getD "") "PUBLIC"
            :: (waitForReady respId prs).1 ∧
      countUpdates (deploy cfg listing respId prs).1 = 1 ∧
      (∀ msg, (deploy cfg listing respId prs).2
        ≠ .error (.configurationError msg)) := by
  have hcond : (falsy cfg.ROLE_ARN || falsy cfg.REPO_URI) = false := by
    rw [hrole, hrepo]; rfl
  obtain ⟨hc0, hu0⟩ :=
    counts_zero_of_gets respId (waitForReady respId prs).1
      (waitForReady_calls_are_gets respId prs)
  obtain ⟨e, he⟩ : ∃ e,
      (listing.filter (fun a => a.agentRuntimeName = AGENT_NAME)).head? = some e := by
    cases hfl : listing.filter (fun a => a.agentRuntimeName = AGENT_NAME) with
    | nil => rw [hfl] at hdup; simp at hdup
    | cons x xs => exact ⟨x, by simp [hfl]⟩
  have hfind : findExistingAgent listing = some e := by
    rw [findExistingAgent, find?_eq_head_filter]
    exact he
  refine ⟨e, he, hfind, ?_, ?_, ?_⟩
  · simp only [deploy, hcond, Bool.false_eq_true, if_false, hfind]
  · simp only [deploy, hcond, Bool.false_eq_true, if_false, hfind]
    simpa [countUpdates, List.filter] using hu0
  · intro msg
    simp only [deploy, hcond, Bool.false_eq_true, if_false, hfind]
    cases (waitForReady respId prs).2 <;> simp

/-- Witness for C4_failure_surfacing: a failure after one in-progress
response, with an absent failureReason, yields the Unknown message. -/
theorem C4_failure_surfacing_witness :
    (waitForReady "rt-3"
        [⟨"UPDATING", none⟩, ⟨"UPDATE_FAILED", none⟩]).1.length = 1 + 1 ∧
    (waitForReady "rt-3"
        [⟨"UPDATING", none⟩, ⟨"UPDATE_FAILED", none⟩]).2
      = .failed ("Deployment failed: "
          ++ orUnknown (RuntimeResponse.mk "UPDATE_FAILED" none).failureReason) ∧
    (∀ reason, (RuntimeResponse.mk "UPDATE_FAILED" none).failureReason = some reason →
        containsStr ("Deployment failed: "
          ++ orUnknown (RuntimeResponse.mk "UPDATE_FAILED" none).failureReason) reason) ∧
    ((RuntimeResponse.mk "UPDATE_FAILED" none).failureReason = none →
        containsStr ("Deployment failed: "
          ++ orUnknown (RuntimeResponse.mk "UPDATE_FAILED" none).failureReason) "Unknown") :=
  C4_failure_surfacing "rt-3" [⟨"UPDATING", none⟩] ⟨"UPDATE_FAILED", none⟩ []
    (by intro r hr; simp at hr; subst hr; exact Or.inr rfl) (Or.inr rfl)

/-- Witness for C7_duplicate_names_first_wins: two listed entries carry
the target name; the first one, with id id-first, is selected. -/
theorem C7_duplicate_names_first_wins_witness :
    ∃ e, (([⟨AGENT_NAME, "id-first"⟩, ⟨AGENT_NAME, "id-second"⟩] : List AgentSummary).filter
            (fun a => a.agentRuntimeName = AGENT_NAME)).head? = some e ∧
      findExistingAgent [⟨AGENT_NAME, "id-first"⟩, ⟨AGENT_NAME, "id-second"⟩] = some e ∧
      (deploy ⟨some "r", some "u"⟩
          [⟨AGENT_NAME, "id-first"⟩, ⟨AGENT_NAME, "id-second"⟩] "rt-7" []).1
        = RemoteCall.listRuntimes
            :: RemoteCall.updateRuntime e.agentRuntimeId
                 ((some "u").getD "" ++ ":latest") ((some "r").getD "") "PUBLIC"
            :: (waitForReady "rt-7" []).1 ∧
      countUpdates (deploy ⟨some "r", some "u"⟩
          [⟨AGENT_NAME, "id-first"⟩, ⟨AGENT_NAME, "id-second"⟩] "rt-7" []).1 = 1 ∧
      (∀ msg, (deploy ⟨some "r", some "u"⟩
          [⟨AGENT_NAME, "id-first"⟩, ⟨AGENT_NAME, "id-second"⟩] "rt-7" []).2
        ≠ .error (.configurationError msg)) :=
  C7_duplicate_names_first_wins ⟨some "r", some "u"⟩
    [⟨AGENT_NAME, "id-first"⟩, ⟨AGENT_NAME, "id-second"⟩] "rt-7" []
    rfl rfl (by decide)

/-- Request body of POST /invocations as seen after the Express
middleware: either a raw text body or a parsed JSON value, of which
only the optional input.prompt string path is relevant to the
handler. -/
inductive ReqBody where
  | rawString (s : String)
  | jsonValue (inputPrompt : Option String)
  deriving Repr, DecidableEq

/-- Embedding of the userMessage extraction of the invocations handler:
a body of string type is taken as the message, otherwise the optional
chain input prompt is read; a falsy result, absent or the empty string,
yields none. -/
def extractUserMessage : ReqBody → Option String
  | .rawString s => if s = "" then none else some s
  | .jsonValue p =>
    match p with
    | some s => if s = "" then none else some s
    | none => none

/-- HTTP response produced by a handler: status code and body text. -/
structure HttpResponse where
  status : Nat
  body : String
  deriving Repr, DecidableEq

/-- Embedding of the POST /invocations handler: extract the user
message; when none is present respond 400 without invoking the agent;
otherwise invoke the agent with the message and send its text as 200,
or send 500 with the error message when the invocation raises. The
agent call is modelled by the agentOutcome argument; the returned flag
records whether the agent was invoked. -/
def handleInvocations (body : ReqBody)
    (agentOutcome : String → Except String String) : HttpResponse × Bool :=
  match extractUserMessage body with
  | none => (⟨400, "No prompt provided"⟩, false)
  | some m =>
    match agentOutcome m with
    | .ok text => (⟨200, text⟩, true)
    | .error e => (⟨500, "Error: " ++ e⟩, true)

/-- C6: every request body that is neither a non-empty raw string nor a
JSON value with a non-empty input prompt, that is, every body from
which no user message is extractable, is answered with status 400 and
the body No prompt provided, and the agent is never invoked, whatever
the agent would have returned. -/
theorem C6_no_prompt_400
    (body : ReqBody) (agentOutcome : String → Except String String)
    (h : extractUserMessage body = none) :
    handleInvocations body agentOutcome = (⟨400, "No prompt provided"⟩, false) := by
  simp [handleInvocations, h]

/-- Witness for C6_no_prompt_400: a JSON body without an input prompt. -/
theorem C6_no_prompt_400_witness :
    handleInvocations (.jsonValue none) (fun m => .ok m)
      = (⟨400, "No prompt provided"⟩, false) :=
  C6_no_prompt_400 (.jsonValue none) (fun m => .ok m) rfl

/-- Arithmetic operation of the calculator tool, the closed enumeration
of its zod input schema. -/
inductive CalcOp where
  | add
  | subtract
  | multiply
  | divide
  deriving Repr, DecidableEq

/-- Result of the calculator tool callback: a number or a string.
JavaScript numbers are modelled as rationals. -/
inductive CalcResult where
  | num (q : ℚ)
  | str (s : String)
  deriving Repr, DecidableEq

/-- Embedding of the calculator tool callback of the agent server:
a switch over the operation, where divide guards on b being non-zero
and returns the divide-by-zero string otherwise. -/
def calculatorTool : CalcOp → ℚ → ℚ → CalcResult
  | .add, a, b => .num (a + b)
  | .subtract, a, b => .num (a - b)
  | .multiply, a, b => .num (a * b)
  | .divide, a, b => if b ≠ 0 then .num (a / b) else .str "Cannot divide by zero"

/-- C9: the divide operation of the calculator tool returns the string
Cannot divide by zero whenever the second operand is zero, and returns
the quotient of the operands whenever it is not. -/
theorem C9_divide_by_zero_guard (a b : ℚ) :
    (b = 0 → calculatorTool .divide a b = .str "Cannot divide by zero") ∧
    (b ≠ 0 → calculatorTool .divide a b = .num (a / b)) := by
  constructor
  · intro hb
    simp [calculatorTool, hb]
  · intro hb
    simp [calculatorTool, hb]

/-- Witness for C9_divide_by_zero_guard at both a zero and a non-zero
divisor. -/
theorem C9_divide_by_zero_guard_witness :
    calculatorTool .divide 6 0 = .str "Cannot divide by zero" ∧
    calculatorTool .divide 6 2 = .num (6 / 2) :=
  ⟨(C9_divide_by_zero_guard 6 0).1 rfl,
   (C9_divide_by_zero_guard 6 2).2 (by norm_num)⟩

/-- Lowercase hexadecimal digit character of a value below 16, as
produced by Buffer toString with the hex encoding. -/
def hexDigitChar (n : Nat) : Char := Nat.digitChar n

/-- Two-character lowercase hexadecimal encoding of one byte. -/
def byteToHex (b : Nat) : List Char := [hexDigitChar (b / 16), hexDigitChar (b % 16)]

/-- Embedding of Buffer toString with the hex encoding applied to a
byte sequence: the concatenation of the per-byte hex pairs. -/
def hexEncode (bytes : List Nat) : String := ⟨(bytes.map byteToHex).flatten⟩

/-- Value of a hexadecimal digit character, a left inverse of
hexDigitChar on digits. -/
def hexCharVal (c : Char) : Nat :=
  (((List.range 16).find? (fun n => hexDigitChar n = c)).getD 0)

/-- Decoder of a hex character sequence back to bytes, two characters
per byte; used to show the encoding is injective. -/
def hexDecodeChars : List Char → List Nat
  | h :: l :: rest => (hexCharVal h * 16 + hexCharVal l) :: hexDecodeChars rest
  | _ => []

/-- hexCharVal inverts hexDigitChar on values below 16. -/
theorem hexCharVal_hexDigitChar : ∀ x < 16, hexCharVal (hexDigitChar x) = x := by decide

/-- Decoding inverts encoding on byte sequences. -/
theorem hexDecode_hexEncode (l : List Nat) (hb : ∀ b ∈ l, b < 256) :
    hexDecodeChars ((l.map byteToHex).flatten) = l := by
  induction l with
  | nil => rfl
  | cons b rest ih =>
    have hblt : b < 256 := hb b (List.mem_cons_self b rest)
    have hrest : ∀ x ∈ rest, x < 256 := fun x hx => hb x (List.mem_cons_of_mem b hx)
    have hdiv : b / 16 < 16 := Nat.div_lt_of_lt_mul (by omega)
    have hmod : b % 16 < 16 := Nat.mod_lt b (by omega)
    have h1 := hexCharVal_hexDigitChar (b / 16) hdiv
    have h2 := hexCharVal_hexDigitChar (b % 16) hmod
    have hdm := Nat.div_add_mod b 16
    have hjoin : ((b :: rest).map byteToHex).flatten
        = hexDigitChar (b / 16) :: hexDigitChar (b % 16)
          :: (rest.map byteToHex).flatten := rfl
    rw [hjoin]
    simp only [hexDecodeChars, h1, h2, ih hrest]
    congr 1
    omega

/-- hexEncode is injective on byte sequences. -/
theorem hexEncode_injOn (l1 l2 : List Nat)
    (h1 : ∀ b ∈ l1, b < 256) (h2 : ∀ b ∈ l2, b < 256)
    (he : hexEncode l1 = hexEncode l2) : l1 = l2 := by
  have hdata : (l1.map byteToHex).flatten = (l2.map byteToHex).flatten :=
    congrArg String.data he
  calc l1 = hexDecodeChars ((l1.map byteToHex).flatten) := (hexDecode_hexEncode l1 h1).symm
    _ = hexDecodeChars ((l2.map byteToHex).flatten) := by rw [hdata]
    _ = l2 := hexDecode_hexEncode l2 h2

/-- The InvokeAgentRuntime command as constructed by the invoke client.
The payload, an encoded prompt in the source, is kept as the prompt
string. -/
structure InvokeAgentRuntimeCommand where
  agentRuntimeArn : String
  runtimeSessionId : String
  payload : String
  qualifier : String
  deriving Repr, DecidableEq

/-- Embedding of the per-call session identifier of the invoke client:
the hex encoding of the 17 random bytes drawn for the call; the bytes
the random source returns are the argument. -/
def sessionId (entropy : List Nat) : String := hexEncode entropy

/-- Embedding of the command construction of the invoke client: the
target ARN, the freshly generated session id, the prompt payload, and
the fixed DEFAULT qualifier. -/
def buildInvokeCommand (arn prompt : String) (entropy : List Nat) :
    InvokeAgentRuntimeCommand :=
  { agentRuntimeArn := arn
    runtimeSessionId := sessionId entropy
    payload := prompt
    qualifier := "DEFAULT" }

/-- Default prompt of the invoke client CLI. -/
def defaultPrompt : String := "What is the weather now?"

/-- Embedding of the PROMPT computation of the invoke client: the
third process argument when present and truthy, else the default
prompt. -/
def resolvePrompt (argv2 : Option String) : String :=
  match argv2 with
  | some s => if s = "" then defaultPrompt else s
  | none => defaultPrompt

/-- Embedding of the invoke client main flow: read AGENT_RUNTIME_ARN
from the environment and fail when it is unset or empty; otherwise
build the invocation command from the resolved prompt and a fresh
session id. -/
def invokeAgentMain (arnEnv : Option String) (argv2 : Option String)
    (entropy : List Nat) : Except String InvokeAgentRuntimeCommand :=
  match arnEnv with
  | none => .error "AGENT_RUNTIME_ARN environment variable is required"
  | some arn =>
    if arn = "" then .error "AGENT_RUNTIME_ARN environment variable is required"
    else .ok (buildInvokeCommand arn (resolvePrompt argv2) entropy)

/-- C8: each invocation call derives its session identifier only from
the fresh random bytes drawn for that call, never from the prompt or
the target ARN, so two sequential calls with the same prompt and the
same ARN whose random draws differ carry two distinct session
identifiers. -/
theorem C8_session_isolation (arn prompt : String) (e1 e2 : List Nat)
    (hl1 : e1.length = 17) (hl2 : e2.length = 17)
    (hb1 : ∀ b ∈ e1, b < 256) (hb2 : ∀ b ∈ e2, b < 256)
    (hne : e1 ≠ e2) :
    (buildInvokeCommand arn prompt e1).runtimeSessionId
      ≠ (buildInvokeCommand arn prompt e2).runtimeSessionId := by
  intro h
  exact hne (hexEncode_injOn e1 e2 hb1 hb2 h)

/-- Witness for C8_session_isolation: two concrete distinct 17-byte
draws with the same prompt and ARN. -/
theorem C8_session_isolation_witness :
    (buildInvokeCommand "arn:x" "hello" (List.replicate 17 0)).runtimeSessionId
      ≠ (buildInvokeCommand "arn:x" "hello" (List.replicate 17 1)).runtimeSessionId :=
  C8_session_isolation "arn:x" "hello" (List.replicate 17 0) (List.replicate 17 1)
    (by decide) (by decide) (by decide) (by decide) (by decide)

/-- C10: run without a prompt argument and with a set ARN, the invoke
client does not fail: it substitutes the default prompt and proceeds,
producing the invocation command whose payload is the default
prompt. -/
theorem C10_default_prompt (arn : String) (entropy : List Nat) (h : arn ≠ "") :
    invokeAgentMain (some arn) none entropy
      = .ok (buildInvokeCommand arn defaultPrompt entropy) ∧
    (buildInvokeCommand arn defaultPrompt entropy).payload
      = "What is the weather now?" := by
  constructor
  · simp [invokeAgentMain, h, resolvePrompt]
  · rfl

/-- Witness for C10_default_prompt at a concrete ARN. -/
theorem C10_default_prompt_witness :
    invokeAgentMain (some "arn:y") none []
      = .ok (buildInvokeCommand "arn:y" defaultPrompt []) ∧
    (buildInvokeCommand "arn:y" defaultPrompt []).payload
      = "What is the weather now?" :=
  C10_default_prompt "arn:y" [] (by decide)

end AgentCore
